import Mathlib

/-!
Verification of `price_monitor_agent.py`: a shallow embedding of the
observation pipeline (source dispatch, persistence, trailing-low
computation, notify-on-new-low decision) together with theorems settling
the specification's claims.

Modelling choices, each taken from the source:
* Python floats that hold prices are modelled by `FloatVal`: either a
  rational number or the `float("inf")` sentinel used as the default for
  a missing `price` field.
* SQLite rows of the `price_history` table are `Row`; the table is a
  `List Row` in insertion order (`INSERT` appends).
* `datetime.utcnow()` is modelled by explicit integer timestamps (seconds);
  `timedelta(weeks=w)` is `w * 604800` seconds.  `check_product` performs
  two `utcnow()` calls (one inside `store_price`, one inside
  `get_trailing_low`), so it takes two time parameters `t1`, `t2`.
* Python exceptions are `Except String`: the scraper may raise, the SQLite
  `INSERT` may raise (disk full, ...; modelled by the oracle `Env.storeOk`),
  and `float()` applied to a non-numeric object raises.  A raised exception
  is caught exactly where the source has a `try/except`.
-/

/-- A Python float as used for prices: a finite rational or `float("inf")`,
the sentinel produced by `result.get("price", float("inf"))`. -/
inductive FloatVal
  | fin (q : Rat)
  | inf
  deriving DecidableEq

/-- Python `<` on price floats. -/
def FloatVal.lt : FloatVal → FloatVal → Bool
  | .fin a, .fin b => decide (a < b)
  | .fin _, .inf => true
  | .inf, _ => false

/-- Python `<=` on price floats. -/
def FloatVal.le : FloatVal → FloatVal → Bool
  | .fin a, .fin b => decide (a ≤ b)
  | .fin _, .inf => true
  | .inf, .fin _ => false
  | .inf, .inf => true

/-- Binary minimum on price floats, as SQL `MIN` combines two values. -/
def FloatVal.min (a b : FloatVal) : FloatVal :=
  if FloatVal.lt b a then b else a

/-- One row of the `price_history` table, as written by `store_price`
(`available` is stored as the integer `1`/`0`, modelled by `Bool`). -/
structure Row where
  sku : String
  site : String
  price : FloatVal
  shipping : FloatVal
  available : Bool
  ts : Int
  deriving DecidableEq

/-- The tuple `store_price` inserts:
`(sku, site, price, shipping, 1 if available else 0, utcnow)`. -/
def mkRow (sku site : String) (price shipping : FloatVal) (available : Bool)
    (t : Int) : Row :=
  ⟨sku, site, price, shipping, available, t⟩

/-- The I/O environment of the SQLite store: whether the `INSERT` of a given
row commits or raises an `sqlite3` error (disk full, permission, ...). -/
structure Env where
  storeOk : Row → Bool

/-- `store_price(sku, site, price, shipping, available)`: appends one row,
stamped with the current time `t`, to the `price_history` table; a failing
`INSERT` raises. -/
def store_price (env : Env) (sku site : String) (price shipping : FloatVal)
    (available : Bool) (t : Int) (db : List Row) : Except String (List Row) :=
  let row := mkRow sku site price shipping available t
  if env.storeOk row then Except.ok (db ++ [row]) else Except.error "StorageError"

/-- SQL `SELECT MIN(price)` over a list of prices: `none` when the set is
empty (SQL `NULL`), otherwise the least element. -/
def sqlMin : List FloatVal → Option FloatVal
  | [] => none
  | x :: xs =>
    some (match sqlMin xs with
      | none => x
      | some m => FloatVal.min x m)

/-- The rows selected by `get_trailing_low`'s query:
`WHERE sku = ? AND ts >= cutoff` with `cutoff = now - weeks` (in seconds;
note: no upper bound on `ts` appears in the SQL). -/
def trailingCandidates (db : List Row) (sku : String) (weeks : Nat)
    (now : Int) : List Row :=
  db.filter (fun r => r.sku == sku && decide (now - (weeks : Int) * 604800 ≤ r.ts))

/-- `get_trailing_low(sku, weeks)`: the minimum price observed for `sku`
since `utcnow() - timedelta(weeks=weeks)`; `None` when no row matches. -/
def get_trailing_low (db : List Row) (sku : String) (weeks : Nat)
    (now : Int) : Option FloatVal :=
  sqlMin ((trailingCandidates db sku weeks now).map Row.price)

/-- A Python value found under a key of the scraper's result dict:
a number, the infinity float, or an object `float()` cannot convert. -/
inductive PyVal
  | num (q : Rat)
  | infv
  | obj
  deriving DecidableEq

/-- Python `float(v)`: raises `TypeError`/`ValueError` on a non-numeric
object. -/
def pyFloat : PyVal → Except String FloatVal
  | .num q => Except.ok (FloatVal.fin q)
  | .infv => Except.ok FloatVal.inf
  | .obj => Except.error "TypeError: float() argument"

/-- The dict returned by a scraper; `none` per field models an absent key
(`result.get(key, default)` supplies the default).  `available` and `site`
hold the results of the total coercions `bool(...)` and `str(...)`. -/
structure FetchResult where
  price : Option PyVal
  shipping : Option PyVal
  available : Option Bool
  site : Option String
  deriving DecidableEq

/-- A fetch capability: `fetch(url)` returns a result dict or raises. -/
def Scraper : Type := String → Except String FetchResult

/-- Whether `pat in hay` holds for Python strings: `pat` occurs as a
contiguous substring of `hay`.  `subListAt pat l` checks `pat` at the
start of `l`. -/
def subListAt : List Char → List Char → Bool
  | [], _ => true
  | _ :: _, [] => false
  | a :: as, b :: bs => a == b && subListAt as bs

/-- `hasSubList pat l`: `pat` occurs contiguously somewhere in `l`. -/
def hasSubList (pat : List Char) : List Char → Bool
  | [] => subListAt pat []
  | c :: cs => subListAt pat (c :: cs) || hasSubList pat cs

/-- Python `pat in hay` on strings. -/
def strContains (hay pat : String) : Bool :=
  hasSubList pat.toList hay.toList

/-- The dispatch loop of `check_product`: the first entry of
`SCRAPER_MAPPING` (in insertion order) whose key is a substring of the
URL; `none` when no key matches. -/
def findScraper (mapping : List (String × Scraper)) (url : String) :
    Option (String × Scraper) :=
  mapping.find? (fun p => strContains url p.1)

/-- A tracked product from `TRACKED_PRODUCTS`. -/
structure Product where
  sku : String
  name : String
  url : String

/-- What one `check_product` call did (its observable effect besides the
store): skipped for lack of a scraper, skipped on a caught fetch error, or
stored an observation — with `notified` recording whether
`send_notification` was called. -/
inductive CheckOutcome
  | noScraper
  | fetchError (msg : String)
  | stored (notified : Bool)
  deriving DecidableEq

/-- The notification condition of `check_product`:
`trailing_low is None or (available and price < trailing_low)`. -/
def notifyDecision (available : Bool) (price : FloatVal) :
    Option FloatVal → Bool
  | none => true
  | some tl => available && FloatVal.lt price tl

/-- `check_product(product)`: dispatch on URL substring; fetch (errors
caught); coerce fields (`float()` may raise, uncaught); store (an
`sqlite3` error is uncaught); query the 52-week trailing low; notify when
`trailing_low is None or (available and price < trailing_low)`.
`t1` and `t2` are the `utcnow()` instants of the store and of the query. -/
def check_product (env : Env) (mapping : List (String × Scraper))
    (t1 t2 : Int) (product : Product) (db : List Row) :
    Except String (List Row × CheckOutcome) :=
  match findScraper mapping product.url with
  | none => Except.ok (db, CheckOutcome.noScraper)
  | some (_, scraper) =>
    match scraper product.url with
    | Except.error e => Except.ok (db, CheckOutcome.fetchError e)
    | Except.ok result =>
      match pyFloat (result.price.getD PyVal.infv) with
      | Except.error e => Except.error e
      | Except.ok price =>
        match pyFloat (result.shipping.getD (PyVal.num 0)) with
        | Except.error e => Except.error e
        | Except.ok shipping =>
          let available := result.available.getD false
          let site := result.site.getD "UnknownSite"
          match store_price env product.sku site price shipping available t1 db with
          | Except.error e => Except.error e
          | Except.ok db2 =>
            let trailing_low := get_trailing_low db2 product.sku 52 t2
            Except.ok (db2, CheckOutcome.stored (notifyDecision available price trailing_low))

/-- `run_monitoring_loop()`: one pass over the tracked products, in list
order, each with its pair of `utcnow()` instants; an exception escaping
`check_product` aborts the pass. -/
def run_monitoring_loop (env : Env) (mapping : List (String × Scraper)) :
    List (Product × Int × Int) → List Row →
    Except String (List Row × List CheckOutcome)
  | [], db => Except.ok (db, [])
  | (p, t1, t2) :: rest, db =>
    match check_product env mapping t1 t2 p db with
    | Except.error e => Except.error e
    | Except.ok (db2, out) =>
      match run_monitoring_loop env mapping rest db2 with
      | Except.error e => Except.error e
      | Except.ok (dbf, outs) => Except.ok (dbf, out :: outs)

/-! ### Spec-side definitions and concrete fixtures -/

/-- The candidate set named by the specification: rows of the SKU whose
timestamp lies in the closed interval `[now - W, now]` (the code's query
has no upper bound; the two sets agree when no row is in the future). -/
def windowRows (db : List Row) (sku : String) (weeks : Nat) (now : Int) :
    List Row :=
  db.filter (fun r => r.sku == sku && decide (now - (weeks : Int) * 604800 ≤ r.ts)
    && decide (r.ts ≤ now))

/-- `optLeB o p`: the optional trailing low `o` is present and at most `p`. -/
def optLeB (o : Option FloatVal) (p : FloatVal) : Bool :=
  match o with
  | none => false
  | some tl => FloatVal.le tl p

/-- A scraper that always returns the same result dict. -/
def constScraper (r : FetchResult) : Scraper := fun _ => Except.ok r

/-- A scraper whose fetch raises. -/
def failScraper (e : String) : Scraper := fun _ => Except.error e

/-- An I/O environment where every `INSERT` commits. -/
def envAll : Env := ⟨fun _ => true⟩

/-- An I/O environment where every `INSERT` raises (e.g. disk full). -/
def envFail : Env := ⟨fun _ => false⟩

/-- Concrete tracked products used to evaluate the theorems. -/
def prodA : Product := ⟨"A", "Product A", "https://example.com/a"⟩

/-- A second product, dispatched through the second mapping entry. -/
def prodB : Product := ⟨"B", "Product B", "https://example2.com/b"⟩

/-- A product whose locator matches no registered scraper key. -/
def prodFoo : Product := ⟨"Z", "Unknown", "foo.bar/item"⟩

/-- Fetch result: price 49, shipping 0, available, from `ExampleSite`. -/
def fr49 : FetchResult :=
  ⟨some (PyVal.num 49), some (PyVal.num 0), some true, some "ExampleSite"⟩

/-- Fetch result whose `price` value is an object `float()` rejects. -/
def frBad : FetchResult :=
  ⟨some PyVal.obj, some (PyVal.num 0), some true, some "S"⟩

/-- Fetch result with every field absent. -/
def frEmpty : FetchResult := ⟨none, none, none, none⟩

/-- Fetch result: price 30, unavailable. -/
def fr30Unavail : FetchResult :=
  ⟨some (PyVal.num 30), some (PyVal.num 0), some false, some "ExampleSite"⟩

/-- Scraper returning `fr49`. -/
def scraper49 : Scraper := constScraper fr49

/-- A one-entry `SCRAPER_MAPPING`. -/
def mapping49 : List (String × Scraper) := [("example.com", scraper49)]

/-- A two-entry `SCRAPER_MAPPING` in registration order, as in the source. -/
def mappingAB : List (String × Scraper) :=
  [("example.com", scraper49), ("example2.com", scraper49)]

/-- A store holding one prior observation for SKU `A` at price 50. -/
def dbPrior : List Row :=
  [mkRow "A" "ExampleSite" (FloatVal.fin 50) (FloatVal.fin 0) true 1000]

/-- A mapping whose first entry's fetch raises and whose second works. -/
def mappingFail : List (String × Scraper) :=
  [("example.com", failScraper "boom"), ("example2.com", scraper49)]

/-- A one-entry mapping whose scraper returns a malformed `price`. -/
def mappingBad : List (String × Scraper) := [("example.com", constScraper frBad)]

/-- A one-entry mapping whose scraper returns a dict with no fields. -/
def mappingEmpty : List (String × Scraper) :=
  [("example.com", constScraper frEmpty)]

/-! ### Order lemmas for `FloatVal` -/

theorem FloatVal.le_refl (a : FloatVal) : FloatVal.le a a = true := by
  cases a <;> simp [FloatVal.le]

theorem FloatVal.le_eq_not_lt (a b : FloatVal) :
    FloatVal.le a b = !FloatVal.lt b a := by
  cases a <;> cases b <;>
    simp only [FloatVal.le, FloatVal.lt, Bool.not_true, Bool.not_false] <;>
    first
    | rfl
    | (rw [← decide_not]; exact decide_eq_decide.mpr not_lt.symm)

theorem FloatVal.le_trans {a b c : FloatVal} (h1 : FloatVal.le a b = true)
    (h2 : FloatVal.le b c = true) : FloatVal.le a c = true := by
  cases a <;> cases b <;> cases c <;>
    simp [FloatVal.le] at h1 h2 ⊢ <;> exact h1.trans h2

theorem FloatVal.le_of_lt {a b : FloatVal} (h : FloatVal.lt a b = true) :
    FloatVal.le a b = true := by
  cases a <;> cases b <;> simp [FloatVal.le, FloatVal.lt] at h ⊢ <;> exact h.le

theorem FloatVal.min_eq_or (a b : FloatVal) :
    FloatVal.min a b = a ∨ FloatVal.min a b = b := by
  unfold FloatVal.min
  by_cases h : FloatVal.lt b a = true
  · right; rw [if_pos h]
  · left; rw [if_neg h]

theorem FloatVal.min_le_left (a b : FloatVal) :
    FloatVal.le (FloatVal.min a b) a = true := by
  unfold FloatVal.min
  by_cases h : FloatVal.lt b a = true
  · rw [if_pos h]; exact FloatVal.le_of_lt h
  · rw [if_neg h]; exact FloatVal.le_refl a

theorem FloatVal.min_le_right (a b : FloatVal) :
    FloatVal.le (FloatVal.min a b) b = true := by
  unfold FloatVal.min
  by_cases h : FloatVal.lt b a = true
  · rw [if_pos h]; exact FloatVal.le_refl b
  · rw [if_neg h]
    rw [FloatVal.le_eq_not_lt]
    simp only [Bool.not_eq_true] at h
    simp [h]

/-! ### `sqlMin` computes a true minimum -/

theorem sqlMin_eq_none_iff (l : List FloatVal) : sqlMin l = none ↔ l = [] := by
  cases l <;> simp [sqlMin]

theorem sqlMin_mem : ∀ {l : List FloatVal} {m : FloatVal},
    sqlMin l = some m → m ∈ l := by
  intro l
  induction l with
  | nil => intro m h; simp [sqlMin] at h
  | cons x xs ih =>
    intro m h
    simp only [sqlMin] at h
    cases hxs : sqlMin xs with
    | none =>
      rw [hxs] at h
      simp only [Option.some.injEq] at h
      simp [h]
    | some m' =>
      rw [hxs] at h
      simp only [Option.some.injEq] at h
      rcases FloatVal.min_eq_or x m' with hc | hc
      · rw [hc] at h; simp [h]
      · rw [hc] at h
        subst h
        exact List.mem_cons_of_mem x (ih hxs)

theorem sqlMin_le : ∀ {l : List FloatVal} {m : FloatVal},
    sqlMin l = some m → ∀ x ∈ l, FloatVal.le m x = true := by
  intro l
  induction l with
  | nil => intro m h; simp [sqlMin] at h
  | cons y ys ih =>
    intro m h x hx
    simp only [sqlMin] at h
    cases hys : sqlMin ys with
    | none =>
      rw [hys] at h
      simp only [Option.some.injEq] at h
      rw [sqlMin_eq_none_iff] at hys
      subst hys
      simp only [List.mem_singleton] at hx
      subst hx
      subst h
      exact FloatVal.le_refl x
    | some m' =>
      rw [hys] at h
      simp only [Option.some.injEq] at h
      subst h
      rcases List.mem_cons.mp hx with hx | hx
      · rw [hx]; exact FloatVal.min_le_left y m'
      · exact FloatVal.le_trans (FloatVal.min_le_right y m') (ih hys x hx)

/-! ### Helper lemmas about the pipeline -/

theorem trailing_optLeB_after_insert (db : List Row) (row : Row) (sku : String)
    (weeks : Nat) (now : Int) (hsku : row.sku = sku)
    (hcut : now - (weeks : Int) * 604800 ≤ row.ts) :
    optLeB (get_trailing_low (db ++ [row]) sku weeks now) row.price = true := by
  have hmem : row ∈ trailingCandidates (db ++ [row]) sku weeks now := by
    apply List.mem_filter.mpr
    refine ⟨List.mem_append_right _ (List.mem_singleton_self row), ?_⟩
    simp [hsku, hcut]
  have hpmem : row.price ∈ (trailingCandidates (db ++ [row]) sku weeks now).map Row.price :=
    List.mem_map_of_mem Row.price hmem
  cases htl : get_trailing_low (db ++ [row]) sku weeks now with
  | none =>
    exfalso
    unfold get_trailing_low at htl
    rw [sqlMin_eq_none_iff] at htl
    rw [htl] at hpmem
    simp at hpmem
  | some tl =>
    unfold get_trailing_low at htl
    have hle := sqlMin_le htl row.price hpmem
    simpa [optLeB] using hle

theorem notifyDecision_eq_false (avail : Bool) (price : FloatVal)
    (tlo : Option FloatVal) (h : optLeB tlo price = true) :
    notifyDecision avail price tlo = false := by
  cases tlo with
  | none => simp [optLeB] at h
  | some tl =>
    simp only [optLeB] at h
    have h2 : (!FloatVal.lt price tl) = true := by
      rw [← FloatVal.le_eq_not_lt]; exact h
    have hlt : FloatVal.lt price tl = false := by simpa using h2
    simp only [notifyDecision, hlt, Bool.and_false]

theorem check_product_stored (env : Env) (mapping : List (String × Scraper))
    (t1 t2 : Int) (p : Product) (db : List Row) (k : String) (sc : Scraper)
    (r : FetchResult) (price shipping : FloatVal)
    (hf : findScraper mapping p.url = some (k, sc))
    (hr : sc p.url = Except.ok r)
    (hp : pyFloat (r.price.getD PyVal.infv) = Except.ok price)
    (hs : pyFloat (r.shipping.getD (PyVal.num 0)) = Except.ok shipping)
    (hok : env.storeOk (mkRow p.sku (r.site.getD "UnknownSite") price shipping
      (r.available.getD false) t1) = true) :
    check_product env mapping t1 t2 p db = Except.ok
      (db ++ [mkRow p.sku (r.site.getD "UnknownSite") price shipping
        (r.available.getD false) t1],
       CheckOutcome.stored (notifyDecision (r.available.getD false) price
         (get_trailing_low
           (db ++ [mkRow p.sku (r.site.getD "UnknownSite") price shipping
             (r.available.getD false) t1]) p.sku 52 t2))) := by
  simp only [check_product, hf, hr, hp, hs, store_price, hok, if_true]

theorem mem_trailingCandidates_append (db : List Row) (row : Row) (sku : String)
    (weeks : Nat) (now : Int) (hsku : row.sku = sku)
    (hcut : now - (weeks : Int) * 604800 ≤ row.ts) :
    row ∈ trailingCandidates (db ++ [row]) sku weeks now := by
  apply List.mem_filter.mpr
  refine ⟨List.mem_append_right _ (List.mem_singleton_self row), ?_⟩
  simp [hsku, hcut]

/-! ### Claims -/

/-- C1: the spec's decision rule says a prior trailing low of 50 followed by
an available observation at price 49 signals a new low, and that the very
first observation for a SKU signals a new low.  The code does neither: it
inserts the observation first, so the trailing low it compares against
already includes the new price (49 < 49 fails) and is never `None`.  This
theorem evaluates the code at both failing inputs: in each case the
observation is stored and `send_notification` is not called. -/
theorem c1_decision_rule_fails_in_code :
    check_product envAll mapping49 2000 2000 prodA dbPrior =
      Except.ok (dbPrior ++
        [mkRow "A" "ExampleSite" (FloatVal.fin 49) (FloatVal.fin 0) true 2000],
        CheckOutcome.stored false) ∧
    check_product envAll mapping49 2000 2000 prodA [] =
      Except.ok ([mkRow "A" "ExampleSite" (FloatVal.fin 49) (FloatVal.fin 0) true 2000],
        CheckOutcome.stored false) :=
  ⟨rfl, rfl⟩

/-- C2: provided no stored row carries a future timestamp (every row is
stamped at insertion time, so this holds in every reachable store),
`get_trailing_low` over window `W` equals the minimum price among rows with
timestamp in the closed interval `[now - W, now]`: it is `none` exactly when
that set is empty, and any returned value is the price of some row in the
window and a lower bound of all of them. -/
theorem c2_trailing_low_is_window_min (db : List Row) (sku : String) (W : Nat)
    (now : Int) (m : FloatVal)
    (hts : ∀ r ∈ db, r.ts ≤ now)
    (hm : get_trailing_low db sku W now = some m) :
    get_trailing_low db sku W now = sqlMin ((windowRows db sku W now).map Row.price) ∧
    (get_trailing_low db sku W now = none ↔ windowRows db sku W now = []) ∧
    m ∈ (windowRows db sku W now).map Row.price ∧
    ∀ x ∈ (windowRows db sku W now).map Row.price, FloatVal.le m x = true := by
  have hfilter : trailingCandidates db sku W now = windowRows db sku W now := by
    unfold trailingCandidates windowRows
    apply List.filter_congr
    intro r hr
    have : decide (r.ts ≤ now) = true := decide_eq_true (hts r hr)
    rw [this, Bool.and_true]
  have heq : get_trailing_low db sku W now =
      sqlMin ((windowRows db sku W now).map Row.price) := by
    unfold get_trailing_low
    rw [hfilter]
  refine ⟨heq, ?_, ?_, ?_⟩
  · rw [heq, sqlMin_eq_none_iff, List.map_eq_nil]
  · rw [heq] at hm
    exact sqlMin_mem hm
  · rw [heq] at hm
    exact sqlMin_le hm

/-- C2 witness: the theorem applied to a concrete store with one in-window
row (price 40) and one row outside the window. -/
theorem c2_witness :
    get_trailing_low
        [mkRow "A" "S" (FloatVal.fin 50) (FloatVal.fin 0) true (-100000000),
         mkRow "A" "S" (FloatVal.fin 40) (FloatVal.fin 0) true 900]
        "A" 52 1000 =
      sqlMin ((windowRows
        [mkRow "A" "S" (FloatVal.fin 50) (FloatVal.fin 0) true (-100000000),
         mkRow "A" "S" (FloatVal.fin 40) (FloatVal.fin 0) true 900]
        "A" 52 1000).map Row.price) ∧
    (get_trailing_low
        [mkRow "A" "S" (FloatVal.fin 50) (FloatVal.fin 0) true (-100000000),
         mkRow "A" "S" (FloatVal.fin 40) (FloatVal.fin 0) true 900]
        "A" 52 1000 = none ↔
      windowRows
        [mkRow "A" "S" (FloatVal.fin 50) (FloatVal.fin 0) true (-100000000),
         mkRow "A" "S" (FloatVal.fin 40) (FloatVal.fin 0) true 900]
        "A" 52 1000 = []) ∧
    FloatVal.fin 40 ∈ (windowRows
        [mkRow "A" "S" (FloatVal.fin 50) (FloatVal.fin 0) true (-100000000),
         mkRow "A" "S" (FloatVal.fin 40) (FloatVal.fin 0) true 900]
        "A" 52 1000).map Row.price ∧
    ∀ x ∈ (windowRows
        [mkRow "A" "S" (FloatVal.fin 50) (FloatVal.fin 0) true (-100000000),
         mkRow "A" "S" (FloatVal.fin 40) (FloatVal.fin 0) true 900]
        "A" 52 1000).map Row.price, FloatVal.le (FloatVal.fin 40) x = true :=
  c2_trailing_low_is_window_min
    [mkRow "A" "S" (FloatVal.fin 50) (FloatVal.fin 0) true (-100000000),
     mkRow "A" "S" (FloatVal.fin 40) (FloatVal.fin 0) true 900]
    "A" 52 1000 (FloatVal.fin 40) (by decide) (by decide)

/-- C9: a successful `store_price` only appends: the new store is the old
one with exactly one row added at the end, its length grows by one, and
every previously stored row is unchanged at its position. -/
theorem c9_append_only (env : Env) (sku site : String)
    (price shipping : FloatVal) (avail : Bool) (t : Int) (db db2 : List Row)
    (i : Nat) (h : store_price env sku site price shipping avail t db = Except.ok db2)
    (hi : i < db.length) (hi2 : i < db2.length) :
    db2 = db ++ [mkRow sku site price shipping avail t] ∧
    db2.length = db.length + 1 ∧
    db2.get ⟨i, hi2⟩ = db.get ⟨i, hi⟩ := by
  unfold store_price at h
  by_cases hok : env.storeOk (mkRow sku site price shipping avail t) = true
  · rw [if_pos hok] at h
    simp only [Except.ok.injEq] at h
    subst h
    refine ⟨rfl, by simp, ?_⟩
    simp [List.getElem_append_left hi]
  · rw [if_neg hok] at h
    simp at h

/-- C9 witness: the theorem applied to a one-row store and a concrete
append. -/
theorem c9_witness :
    dbPrior ++ [mkRow "A" "S" (FloatVal.fin 42) (FloatVal.fin 1) false 5] =
      dbPrior ++ [mkRow "A" "S" (FloatVal.fin 42) (FloatVal.fin 1) false 5] ∧
    (dbPrior ++ [mkRow "A" "S" (FloatVal.fin 42) (FloatVal.fin 1) false 5]).length =
      dbPrior.length + 1 ∧
    (dbPrior ++ [mkRow "A" "S" (FloatVal.fin 42) (FloatVal.fin 1) false 5]).get
        ⟨0, by decide⟩ = dbPrior.get ⟨0, by decide⟩ :=
  c9_append_only envAll "A" "S" (FloatVal.fin 42) (FloatVal.fin 1) false 5
    dbPrior (dbPrior ++ [mkRow "A" "S" (FloatVal.fin 42) (FloatVal.fin 1) false 5])
    0 rfl (by decide) (by decide)

/-- C3: on a successful fetch, coercion and store, `check_product` appends
the observation first and only then queries the trailing low: its result is
exactly the store with the new row followed by the decision computed from
`get_trailing_low` over that post-insert store, and the just-inserted row
itself satisfies the query's filter, i.e. is a candidate of the minimum it
is compared against (the clock hypothesis says the two `utcnow()` calls of
one `check_product` run lie within one window of each other). -/
theorem c3_query_after_insert (env : Env) (mapping : List (String × Scraper))
    (t1 t2 : Int) (p : Product) (db : List Row) (k : String) (sc : Scraper)
    (r : FetchResult) (price shipping : FloatVal)
    (hf : findScraper mapping p.url = some (k, sc))
    (hr : sc p.url = Except.ok r)
    (hpr : pyFloat (r.price.getD PyVal.infv) = Except.ok price)
    (hsh : pyFloat (r.shipping.getD (PyVal.num 0)) = Except.ok shipping)
    (hok : env.storeOk (mkRow p.sku (r.site.getD "UnknownSite") price shipping
      (r.available.getD false) t1) = true)
    (hcut : t2 - 52 * 604800 ≤ t1) :
    check_product env mapping t1 t2 p db = Except.ok
      (db ++ [mkRow p.sku (r.site.getD "UnknownSite") price shipping
        (r.available.getD false) t1],
       CheckOutcome.stored (notifyDecision (r.available.getD false) price
         (get_trailing_low
           (db ++ [mkRow p.sku (r.site.getD "UnknownSite") price shipping
             (r.available.getD false) t1]) p.sku 52 t2))) ∧
    mkRow p.sku (r.site.getD "UnknownSite") price shipping
      (r.available.getD false) t1 ∈
      trailingCandidates
        (db ++ [mkRow p.sku (r.site.getD "UnknownSite") price shipping
          (r.available.getD false) t1]) p.sku 52 t2 := by
  refine ⟨check_product_stored env mapping t1 t2 p db k sc r price shipping
    hf hr hpr hsh hok, ?_⟩
  apply mem_trailingCandidates_append
  · rfl
  · simpa [mkRow] using hcut

/-- C3 witness: the theorem at a concrete product, store and scraper. -/
theorem c3_witness :
    check_product envAll mapping49 1500 2000 prodA dbPrior = Except.ok
      (dbPrior ++ [mkRow "A" "ExampleSite" (FloatVal.fin 49) (FloatVal.fin 0) true 1500],
       CheckOutcome.stored (notifyDecision true (FloatVal.fin 49)
         (get_trailing_low
           (dbPrior ++ [mkRow "A" "ExampleSite" (FloatVal.fin 49) (FloatVal.fin 0) true 1500])
           "A" 52 2000))) ∧
    mkRow "A" "ExampleSite" (FloatVal.fin 49) (FloatVal.fin 0) true 1500 ∈
      trailingCandidates
        (dbPrior ++ [mkRow "A" "ExampleSite" (FloatVal.fin 49) (FloatVal.fin 0) true 1500])
        "A" 52 2000 :=
  c3_query_after_insert envAll mapping49 1500 2000 prodA dbPrior
    "example.com" scraper49 fr49 (FloatVal.fin 49) (FloatVal.fin 0)
    rfl rfl rfl rfl rfl (by decide)

/-- C10: whenever a fetched observation is successfully coerced and stored,
the trailing-low query that follows the insert returns a value (never
`none`) that is at most the just-stored price, so the notification
condition is false and `check_product` never calls `send_notification`.
The clock hypothesis says the store and the query, microseconds apart in
the source, lie within one 52-week window of each other. -/
theorem c10_successful_store_never_notifies (env : Env)
    (mapping : List (String × Scraper)) (t1 t2 : Int) (p : Product)
    (db : List Row) (k : String) (sc : Scraper) (r : FetchResult)
    (price shipping : FloatVal)
    (hf : findScraper mapping p.url = some (k, sc))
    (hr : sc p.url = Except.ok r)
    (hpr : pyFloat (r.price.getD PyVal.infv) = Except.ok price)
    (hsh : pyFloat (r.shipping.getD (PyVal.num 0)) = Except.ok shipping)
    (hok : env.storeOk (mkRow p.sku (r.site.getD "UnknownSite") price shipping
      (r.available.getD false) t1) = true)
    (hcut : t2 - 52 * 604800 ≤ t1) :
    check_product env mapping t1 t2 p db = Except.ok
      (db ++ [mkRow p.sku (r.site.getD "UnknownSite") price shipping
        (r.available.getD false) t1],
       CheckOutcome.stored false) ∧
    optLeB (get_trailing_low
      (db ++ [mkRow p.sku (r.site.getD "UnknownSite") price shipping
        (r.available.getD false) t1]) p.sku 52 t2) price = true := by
  have hle := trailing_optLeB_after_insert db
    (mkRow p.sku (r.site.getD "UnknownSite") price shipping
      (r.available.getD false) t1) p.sku 52 t2 rfl (by simpa [mkRow] using hcut)
  have hle2 : optLeB (get_trailing_low
      (db ++ [mkRow p.sku (r.site.getD "UnknownSite") price shipping
        (r.available.getD false) t1]) p.sku 52 t2) price = true := by
    simpa [mkRow] using hle
  have hcps := check_product_stored env mapping t1 t2 p db k sc r price shipping
    hf hr hpr hsh hok
  rw [notifyDecision_eq_false _ _ _ hle2] at hcps
  exact ⟨hcps, hle2⟩

/-- C10 witness: the theorem at a concrete product, store and scraper. -/
theorem c10_witness :
    check_product envAll mapping49 1200 1300 prodA dbPrior = Except.ok
      (dbPrior ++ [mkRow "A" "ExampleSite" (FloatVal.fin 49) (FloatVal.fin 0) true 1200],
       CheckOutcome.stored false) ∧
    optLeB (get_trailing_low
      (dbPrior ++ [mkRow "A" "ExampleSite" (FloatVal.fin 49) (FloatVal.fin 0) true 1200])
      "A" 52 1300) (FloatVal.fin 49) = true :=
  c10_successful_store_never_notifies envAll mapping49 1200 1300 prodA dbPrior
    "example.com" scraper49 fr49 (FloatVal.fin 49) (FloatVal.fin 0)
    rfl rfl rfl rfl rfl (by decide)

/-- C4: a fetched observation whose coerced `available` is `false` is still
persisted (the store gains exactly that row) but never triggers a
notification, whatever its price: the stored outcome is
`CheckOutcome.stored false`. -/
theorem c4_unavailable_persisted_not_notified (env : Env)
    (mapping : List (String × Scraper)) (t1 t2 : Int) (p : Product)
    (db : List Row) (k : String) (sc : Scraper) (r : FetchResult)
    (price shipping : FloatVal)
    (hf : findScraper mapping p.url = some (k, sc))
    (hr : sc p.url = Except.ok r)
    (hpr : pyFloat (r.price.getD PyVal.infv) = Except.ok price)
    (hsh : pyFloat (r.shipping.getD (PyVal.num 0)) = Except.ok shipping)
    (hav : r.available.getD false = false)
    (hok : env.storeOk (mkRow p.sku (r.site.getD "UnknownSite") price shipping
      false t1) = true)
    (hcut : t2 - 52 * 604800 ≤ t1) :
    check_product env mapping t1 t2 p db = Except.ok
      (db ++ [mkRow p.sku (r.site.getD "UnknownSite") price shipping false t1],
       CheckOutcome.stored false) := by
  have hok2 : env.storeOk (mkRow p.sku (r.site.getD "UnknownSite") price shipping
      (r.available.getD false) t1) = true := by rw [hav]; exact hok
  have hcps := check_product_stored env mapping t1 t2 p db k sc r price shipping
    hf hr hpr hsh hok2
  rw [hav] at hcps
  have hle := trailing_optLeB_after_insert db
    (mkRow p.sku (r.site.getD "UnknownSite") price shipping false t1)
    p.sku 52 t2 rfl (by simpa [mkRow] using hcut)
  have hle2 : optLeB (get_trailing_low
      (db ++ [mkRow p.sku (r.site.getD "UnknownSite") price shipping false t1])
      p.sku 52 t2) price = true := by
    simpa [mkRow] using hle
  rw [notifyDecision_eq_false _ _ _ hle2] at hcps
  exact hcps

/-- C4 witness: the spec's `X2` scenario — a single unavailable observation
at price 30 is persisted but not notified. -/
theorem c4_witness :
    check_product envAll [("example.com", constScraper fr30Unavail)] 0 0 prodA [] =
      Except.ok ([mkRow "A" "ExampleSite" (FloatVal.fin 30) (FloatVal.fin 0) false 0],
        CheckOutcome.stored false) :=
  c4_unavailable_persisted_not_notified envAll
    [("example.com", constScraper fr30Unavail)] 0 0 prodA []
    "example.com" (constScraper fr30Unavail) fr30Unavail
    (FloatVal.fin 30) (FloatVal.fin 0) rfl rfl rfl rfl rfl rfl (by decide)

/-- C5: dispatch selects the first registered mapping entry (in insertion
order) whose key is a substring of the product's URL — any entry registered
earlier does not match — and when no registered key is a substring of a
product's URL, `check_product` returns normally with the store unchanged
and no notification (outcome `noScraper`), raising nothing. -/
theorem c5_dispatch_first_match_and_miss (mapping : List (String × Scraper))
    (url : String) (k : String) (sc : Scraper)
    (hfind : findScraper mapping url = some (k, sc))
    (env : Env) (t1 t2 : Int) (q : Product) (db : List Row)
    (hmiss : ∀ x ∈ mapping, strContains q.url x.1 = false) :
    (∃ i : Nat, ∃ hi : i < mapping.length,
      mapping.get ⟨i, hi⟩ = (k, sc) ∧ strContains url k = true ∧
      ∀ j (hj : j < i), strContains url (mapping.get ⟨j, Nat.lt_trans hj hi⟩).1 = false) ∧
    check_product env mapping t1 t2 q db = Except.ok (db, CheckOutcome.noScraper) := by
  constructor
  · have h := hfind
    unfold findScraper at h
    rw [List.find?_eq_some_iff_getElem] at h
    obtain ⟨hsc, i, hi, hb, hj⟩ := h
    refine ⟨i, hi, by simpa using hb, by simpa using hsc, ?_⟩
    intro j hj2
    have := hj j hj2
    simpa using this
  · have hnone : findScraper mapping q.url = none := by
      unfold findScraper
      rw [List.find?_eq_none]
      intro x hx
      simp [hmiss x hx]
    simp only [check_product, hnone]

/-- C5 witness: with the two-entry mapping of the source, product A's URL
dispatches to the first entry, and the locator `foo.bar/item` matches no
key so the product is skipped without a store write. -/
theorem c5_witness :
    (∃ i : Nat, ∃ hi : i < mappingAB.length,
      mappingAB.get ⟨i, hi⟩ = ("example.com", scraper49) ∧
      strContains prodA.url "example.com" = true ∧
      ∀ j (hj : j < i),
        strContains prodA.url (mappingAB.get ⟨j, Nat.lt_trans hj hi⟩).1 = false) ∧
    check_product envAll mappingAB 0 0 prodFoo [] =
      Except.ok ([], CheckOutcome.noScraper) :=
  c5_dispatch_first_match_and_miss mappingAB prodA.url "example.com" scraper49
    rfl envAll 0 0 prodFoo [] (by decide)

/-- C6: a fetch error is caught inside `check_product`: the product is
skipped with nothing stored and no notification, and the rest of the pass
runs exactly as it would have from the same store — every later product is
processed identically (and notified whenever it would have been). -/
theorem c6_fetch_failure_isolated (env : Env)
    (mapping : List (String × Scraper)) (t1 t2 : Int) (p : Product)
    (db : List Row) (k : String) (sc : Scraper) (e : String)
    (hf : findScraper mapping p.url = some (k, sc))
    (he : sc p.url = Except.error e)
    (rest : List (Product × Int × Int)) :
    check_product env mapping t1 t2 p db = Except.ok (db, CheckOutcome.fetchError e) ∧
    run_monitoring_loop env mapping ((p, t1, t2) :: rest) db =
      Except.map (fun x => (x.1, CheckOutcome.fetchError e :: x.2))
        (run_monitoring_loop env mapping rest db) := by
  have h1 : check_product env mapping t1 t2 p db =
      Except.ok (db, CheckOutcome.fetchError e) := by
    simp only [check_product, hf, he]
  refine ⟨h1, ?_⟩
  simp only [run_monitoring_loop, h1]
  cases hrec : run_monitoring_loop env mapping rest db with
  | error e2 => simp [Except.map]
  | ok pr => simp [Except.map]

/-- C6 witness: product A's fetch raises, product B later in the list is
still processed from the unchanged store. -/
theorem c6_witness :
    check_product envAll mappingFail 0 0 prodA [] =
      Except.ok ([], CheckOutcome.fetchError "boom") ∧
    run_monitoring_loop envAll mappingFail [(prodA, 0, 0), (prodB, 10, 20)] [] =
      Except.map (fun x => (x.1, CheckOutcome.fetchError "boom" :: x.2))
        (run_monitoring_loop envAll mappingFail [(prodB, 10, 20)] []) :=
  c6_fetch_failure_isolated envAll mappingFail 0 0 prodA []
    "example.com" (failScraper "boom") "boom" rfl rfl [(prodB, 10, 20)]

/-- C7 counterexample: with a store whose `INSERT` raises, a pass over two
products aborts on the first product's storage failure with the raised
`StorageError` — it does not continue to the second product, contradicting
the claim that a storage-write failure is non-fatal to the pass. -/
theorem c7_counterexample_store_failure_aborts :
    run_monitoring_loop envFail mappingAB [(prodA, 0, 0), (prodB, 0, 0)] [] =
      Except.error "StorageError" :=
  rfl

/-- C7 (amended): a failing store append is not caught anywhere — only the
fetch is inside a `try/except` — so `check_product` raises `StorageError`
and the monitoring pass aborts, leaving every later product unprocessed. -/
theorem c7_store_failure_aborts_pass (env : Env)
    (mapping : List (String × Scraper)) (t1 t2 : Int) (p : Product)
    (db : List Row) (k : String) (sc : Scraper) (r : FetchResult)
    (price shipping : FloatVal)
    (hf : findScraper mapping p.url = some (k, sc))
    (hr : sc p.url = Except.ok r)
    (hpr : pyFloat (r.price.getD PyVal.infv) = Except.ok price)
    (hsh : pyFloat (r.shipping.getD (PyVal.num 0)) = Except.ok shipping)
    (hfail : env.storeOk (mkRow p.sku (r.site.getD "UnknownSite") price shipping
      (r.available.getD false) t1) = false)
    (rest : List (Product × Int × Int)) :
    check_product env mapping t1 t2 p db = Except.error "StorageError" ∧
    run_monitoring_loop env mapping ((p, t1, t2) :: rest) db =
      Except.error "StorageError" := by
  have h1 : check_product env mapping t1 t2 p db = Except.error "StorageError" := by
    simp [check_product, hf, hr, hpr, hsh, store_price, hfail]
  refine ⟨h1, ?_⟩
  simp only [run_monitoring_loop, h1]

/-- C7 witness for the amended claim: the first product's store fails and
the whole pass returns the storage error. -/
theorem c7_witness :
    check_product envFail mapping49 0 0 prodA [] = Except.error "StorageError" ∧
    run_monitoring_loop envFail mapping49 [(prodA, 0, 0), (prodB, 0, 0)] [] =
      Except.error "StorageError" :=
  c7_store_failure_aborts_pass envFail mapping49 0 0 prodA []
    "example.com" scraper49 fr49 (FloatVal.fin 49) (FloatVal.fin 0)
    rfl rfl rfl rfl rfl [(prodB, 0, 0)]

/-- C8 counterexample: a present but malformed `price` (an object `float()`
cannot convert) is not coerced: `check_product` raises the uncaught
`TypeError`, contradicting "coerces missing or malformed fields without
failing". -/
theorem c8_counterexample_malformed_price_raises :
    check_product envAll mappingBad 0 0 prodA [] =
      Except.error "TypeError: float() argument" :=
  rfl

/-- C8 (amended): absent fields are coerced without failing — an absent
`price` becomes the `inf` "unknown" sentinel which never by itself triggers
a notification, an absent `shipping` becomes 0, an absent `available`
becomes `false` (the stored row carries `r.available.getD false`), and an
absent `site` becomes the literal `"UnknownSite"`; but a malformed
`price`/`shipping` raises (see the counterexample). -/
theorem c8_absent_fields_defaulted (env : Env)
    (mapping : List (String × Scraper)) (t1 t2 : Int) (p : Product)
    (db : List Row) (k : String) (sc : Scraper) (r : FetchResult)
    (hf : findScraper mapping p.url = some (k, sc))
    (hr : sc p.url = Except.ok r)
    (hpn : r.price = none) (hsn : r.shipping = none) (hstn : r.site = none)
    (hok : env.storeOk (mkRow p.sku "UnknownSite" FloatVal.inf (FloatVal.fin 0)
      (r.available.getD false) t1) = true)
    (hcut : t2 - 52 * 604800 ≤ t1) :
    check_product env mapping t1 t2 p db = Except.ok
      (db ++ [mkRow p.sku "UnknownSite" FloatVal.inf (FloatVal.fin 0)
        (r.available.getD false) t1],
       CheckOutcome.stored false) := by
  have hpr : pyFloat (r.price.getD PyVal.infv) = Except.ok FloatVal.inf := by
    rw [hpn]; rfl
  have hsh : pyFloat (r.shipping.getD (PyVal.num 0)) = Except.ok (FloatVal.fin 0) := by
    rw [hsn]; rfl
  have hok2 : env.storeOk (mkRow p.sku (r.site.getD "UnknownSite") FloatVal.inf
      (FloatVal.fin 0) (r.available.getD false) t1) = true := by
    rw [hstn]; exact hok
  have hcps := check_product_stored env mapping t1 t2 p db k sc r
    FloatVal.inf (FloatVal.fin 0) hf hr hpr hsh hok2
  simp only [hstn, Option.getD_none] at hcps
  have hle := trailing_optLeB_after_insert db
    (mkRow p.sku "UnknownSite" FloatVal.inf (FloatVal.fin 0)
      (r.available.getD false) t1) p.sku 52 t2 rfl (by simpa [mkRow] using hcut)
  have hle2 : optLeB (get_trailing_low
      (db ++ [mkRow p.sku "UnknownSite" FloatVal.inf (FloatVal.fin 0)
        (r.available.getD false) t1]) p.sku 52 t2) FloatVal.inf = true := by
    simpa [mkRow] using hle
  rw [notifyDecision_eq_false _ _ _ hle2] at hcps
  exact hcps

/-- C8 witness for the amended claim: a scraper returning an empty dict
stores `(inf, 0, false, "UnknownSite")` and does not notify. -/
theorem c8_witness :
    check_product envAll mappingEmpty 0 0 prodA [] = Except.ok
      ([mkRow "A" "UnknownSite" FloatVal.inf (FloatVal.fin 0) false 0],
       CheckOutcome.stored false) :=
  c8_absent_fields_defaulted envAll mappingEmpty 0 0 prodA []
    "example.com" (constScraper frEmpty) frEmpty
    rfl rfl rfl rfl rfl rfl (by decide)
